/-
  Verification development for the hiero_sdk_python client library.

  Shallow embedding of the repository's core object model:
  - crypto key wrappers (PrivateKey / PublicKey) over Ed25519 and ECDSA secp256k1,
  - typed identifiers and the PendingAirdropId composite identifier,
  - the base Transaction state machine (freeze / sign / setters),
  - the TokenPause, TokenAssociate and TokenClaimAirdrop transaction variants,
  - the TransactionReceipt decoder.

  Machine integers are modelled as Nat; byte strings as lists of Nat together
  with a well-formedness predicate (each element below 256).  Fallible Python
  code (raise) is modelled with Except String.  The external `cryptography`
  library (out of scope per the spec) is modelled by deterministic, injective
  byte-template codecs whose structure follows the real DER encodings.
-/

import Mathlib

set_option maxRecDepth 4000

/-- A byte string: a list of naturals, well formed when every entry is below 256. -/
abbrev Bytes := List Nat

/-- Every element of the byte string is an actual byte (below 256). -/
def BytesWF (b : Bytes) : Prop := ∀ x ∈ b, x < 256

instance : DecidablePred BytesWF := fun b =>
  inferInstanceAs (Decidable (∀ x ∈ b, x < 256))

/-- Big-endian interpretation of a byte string as a natural number
    (model of Python `int.from_bytes(b, "big")`). -/
def beBytesToNat : Bytes → Nat
  | [] => 0
  | a :: t => a * 256 ^ t.length + beBytesToNat t

/-- Big-endian encoding of a natural number into a fixed number of bytes
    (model of Python `v.to_bytes(k, "big")`). -/
def natToBeBytes : Nat → Nat → Bytes
  | 0, _ => []
  | k + 1, v => v / 256 ^ k :: natToBeBytes k (v % 256 ^ k)

theorem natToBeBytes_length (k v : Nat) : (natToBeBytes k v).length = k := by
  induction k generalizing v with
  | zero => rfl
  | succ k ih => simp [natToBeBytes, ih]

theorem beBytesToNat_lt (b : Bytes) (h : BytesWF b) :
    beBytesToNat b < 256 ^ b.length := by
  induction b with
  | nil => simp [beBytesToNat]
  | cons a t ih =>
    have ha : a < 256 := h a (List.mem_cons_self a t)
    have ht : beBytesToNat t < 256 ^ t.length :=
      ih (fun x hx => h x (List.mem_cons_of_mem a hx))
    have h1 : a * 256 ^ t.length + beBytesToNat t < (a + 1) * 256 ^ t.length := by
      have := Nat.add_lt_add_left ht (a * 256 ^ t.length)
      calc a * 256 ^ t.length + beBytesToNat t
          < a * 256 ^ t.length + 256 ^ t.length := this
        _ = (a + 1) * 256 ^ t.length := by ring
    have h2 : (a + 1) * 256 ^ t.length ≤ 256 * 256 ^ t.length :=
      Nat.mul_le_mul_right _ (Nat.succ_le_of_lt ha)
    have h3 : 256 * 256 ^ t.length = 256 ^ (a :: t).length := by
      simp [List.length_cons, pow_succ]; ring
    calc beBytesToNat (a :: t)
        = a * 256 ^ t.length + beBytesToNat t := rfl
      _ < (a + 1) * 256 ^ t.length := h1
      _ ≤ 256 * 256 ^ t.length := h2
      _ = 256 ^ (a :: t).length := h3

theorem beBytesToNat_natToBeBytes (k v : Nat) (h : v < 256 ^ k) :
    beBytesToNat (natToBeBytes k v) = v := by
  induction k generalizing v with
  | zero =>
    have : v = 0 := Nat.lt_one_iff.mp (by simpa using h)
    simp [natToBeBytes, beBytesToNat, this]
  | succ k ih =>
    have hB : 0 < 256 ^ k := Nat.pos_pow_of_pos k (by norm_num)
    have hmod : v % 256 ^ k < 256 ^ k := Nat.mod_lt _ hB
    simp only [natToBeBytes, beBytesToNat, natToBeBytes_length, ih _ hmod]
    rw [Nat.mul_comm (v / 256 ^ k) (256 ^ k), Nat.div_add_mod]

theorem natToBeBytes_beBytesToNat (b : Bytes) (h : BytesWF b) :
    natToBeBytes b.length (beBytesToNat b) = b := by
  induction b with
  | nil => rfl
  | cons a t ih =>
    have ht : BytesWF t := fun x hx => h x (List.mem_cons_of_mem a hx)
    have hlt : beBytesToNat t < 256 ^ t.length := beBytesToNat_lt t ht
    have hdiv : (a * 256 ^ t.length + beBytesToNat t) / 256 ^ t.length = a := by
      rw [Nat.mul_comm a (256 ^ t.length),
        Nat.mul_add_div (Nat.pos_pow_of_pos t.length (by norm_num)),
        Nat.div_eq_of_lt hlt, Nat.add_zero]
    have hmod : (a * 256 ^ t.length + beBytesToNat t) % 256 ^ t.length
        = beBytesToNat t := by
      rw [Nat.mul_comm a (256 ^ t.length), Nat.mul_add_mod,
        Nat.mod_eq_of_lt hlt]
    simp only [List.length_cons, natToBeBytes, beBytesToNat, hdiv, hmod, ih ht]

/-
  ===========================================================================
  Key Abstraction (src/src/hiero_sdk_python/crypto/private_key.py and
  public_key.py).

  The wrapped objects of the external `cryptography` library are modelled by
  the key material that determines them: an Ed25519 private key by its 32-byte
  seed, an ECDSA secp256k1 private key by its scalar, an Ed25519 public key by
  its 32 raw bytes, and an ECDSA public key by its compressed SEC1 point
  encoding (the raw form the SDK exports).  DER serialization performed by the
  library is modelled by the corresponding deterministic byte templates: the
  Ed25519 PKCS#8 and SubjectPublicKeyInfo prefixes are the real ones; for
  ECDSA the templates keep the real header bytes and append the key material
  (the derived public point embedded in the real encodings is omitted from
  the model, being derived data).
  ===========================================================================
-/

/-- Order of the secp256k1 group (valid private scalars are 1 .. n-1). -/
def secp256k1N : Nat :=
  0xFFFFFFFFFFFFFFFFFFFFFFFFFFFFFFFEBAAEDCE6AF48A03BBFD25E8CD0364141

/-- Model of `PrivateKey`: a tagged union over the two supported families,
    holding the determining key material. -/
inductive PrivateKey where
  | ed25519 (seed : Bytes)
  | ecdsa (scalar : Nat)
deriving DecidableEq

/-- Model of `PublicKey`: Ed25519 raw bytes, or the compressed SEC1 point
    bytes of an ECDSA secp256k1 public key. -/
inductive PublicKey where
  | ed25519 (pub : Bytes)
  | ecdsa (point : Bytes)
deriving DecidableEq

/-- PKCS#8 DER header for an Ed25519 private key (the real 16-byte prefix
    produced by the cryptography library before the 32-byte seed). -/
def ed25519Pkcs8Header : Bytes :=
  [0x30, 0x2e, 0x02, 0x01, 0x00, 0x30, 0x05, 0x06, 0x03, 0x2b, 0x65, 0x70,
   0x04, 0x22, 0x04, 0x20]

/-- PKCS#8 DER header for an ECDSA secp256k1 private key, through the
    OCTET STRING tag that introduces the 32-byte scalar.  Modelled from the
    library's real output; the trailing embedded public-key section (derived
    data) is omitted from the model. -/
def ecdsaPkcs8Header : Bytes :=
  [0x30, 0x81, 0x84, 0x02, 0x01, 0x00, 0x30, 0x10, 0x06, 0x07, 0x2a, 0x86,
   0x48, 0xce, 0x3d, 0x02, 0x01, 0x06, 0x05, 0x2b, 0x81, 0x04, 0x00, 0x0a,
   0x04, 0x6d, 0x30, 0x6b, 0x02, 0x01, 0x01, 0x04, 0x20]

/-- SubjectPublicKeyInfo DER header for an Ed25519 public key (the real
    12-byte prefix before the 32 raw bytes). -/
def ed25519SpkiHeader : Bytes :=
  [0x30, 0x2a, 0x30, 0x05, 0x06, 0x03, 0x2b, 0x65, 0x70, 0x03, 0x21, 0x00]

/-- SubjectPublicKeyInfo DER header for an ECDSA secp256k1 public key.
    Modelled from the library's real output header; in the model the key
    material that follows is the compressed point. -/
def ecdsaSpkiHeader : Bytes :=
  [0x30, 0x56, 0x30, 0x10, 0x06, 0x07, 0x2a, 0x86, 0x48, 0xce, 0x3d, 0x02,
   0x01, 0x06, 0x05, 0x2b, 0x81, 0x04, 0x00, 0x0a, 0x03, 0x42, 0x00]

namespace PrivateKey

/-- Embedding of `PrivateKey.from_bytes_ed25519`: requires exactly 32 bytes.
    (`Ed25519PrivateKey.from_private_bytes` accepts every 32-byte seed.) -/
def from_bytes_ed25519 (seed : Bytes) : Except String PrivateKey :=
  if seed.length ≠ 32 then
    .error ("Ed25519 seed must be exactly 32 bytes, got "
      ++ toString seed.length ++ ".")
  else
    .ok (.ed25519 seed)

/-- Embedding of `PrivateKey.from_bytes_ecdsa`: requires exactly 32 bytes,
    interprets them big-endian, and requires a valid curve scalar
    (`ec.derive_private_key` rejects 0 and values at or above the order). -/
def from_bytes_ecdsa (scalar : Bytes) : Except String PrivateKey :=
  if scalar.length ≠ 32 then
    .error ("ECDSA (secp256k1) scalar must be 32 bytes, got "
      ++ toString scalar.length ++ ".")
  else
    let private_int := beBytesToNat scalar
    if private_int = 0 ∨ secp256k1N ≤ private_int then
      .error ("Invalid ECDSA secp256k1 scalar: out of range.")
    else
      .ok (.ecdsa private_int)

/-- Embedding of `PrivateKey.to_bytes_raw`: the 32-byte seed for Ed25519, the
    32-byte big-endian scalar for ECDSA. -/
def to_bytes_raw : PrivateKey → Bytes
  | .ed25519 seed => seed
  | .ecdsa scalar => natToBeBytes 32 scalar

/-- Embedding of `PrivateKey.to_bytes_der` (PKCS#8 via the modelled library
    templates). -/
def to_bytes_der : PrivateKey → Bytes
  | .ed25519 seed => ed25519Pkcs8Header ++ seed
  | .ecdsa scalar => ecdsaPkcs8Header ++ natToBeBytes 32 scalar

/-- Embedding of `PrivateKey.from_der`: parses the modelled PKCS#8 templates,
    detecting Ed25519 versus ECDSA secp256k1; anything else is rejected
    (undecodable DER and unsupported algorithms collapse to errors). -/
def from_der (der_bytes : Bytes) : Except String PrivateKey :=
  if der_bytes.take 16 = ed25519Pkcs8Header then
    if (der_bytes.drop 16).length = 32 then
      .ok (.ed25519 (der_bytes.drop 16))
    else
      .error ("Could not parse DER private key: bad Ed25519 payload.")
  else if der_bytes.take 33 = ecdsaPkcs8Header then
    let sb := der_bytes.drop 33
    if sb.length = 32 then
      let v := beBytesToNat sb
      if v = 0 ∨ secp256k1N ≤ v then
        .error ("Could not parse DER private key: bad scalar.")
      else
        .ok (.ecdsa v)
    else
      .error ("Could not parse DER private key: bad ECDSA payload.")
  else
    .error ("Could not parse DER private key: unrecognized structure.")

end PrivateKey

namespace PublicKey

/-- Embedding of `PublicKey.from_bytes_ed25519`: requires exactly 32 bytes. -/
def from_bytes_ed25519 (pub : Bytes) : Except String PublicKey :=
  if pub.length ≠ 32 then
    .error ("Ed25519 public key must be 32 bytes, got "
      ++ toString pub.length ++ ".")
  else
    .ok (.ed25519 pub)

/-- Embedding of `PublicKey.from_bytes_ecdsa`: the SDK accepts only 33 or 65
    bytes, then hands the bytes to `ec.EllipticCurvePublicKey.from_encoded_point`,
    which requires a valid SEC1 tag (02/03 compressed, 04 uncompressed) and
    normalizes the point; the model stores the compressed form, compressing a
    65-byte input by the parity of its y coordinate.  (The library's on-curve
    membership check is not modelled.) -/
def from_bytes_ecdsa (pub : Bytes) : Except String PublicKey :=
  if ¬(pub.length = 33 ∨ pub.length = 65) then
    .error ("ECDSA (secp256k1) pubkey must be 33 or 65 bytes, got "
      ++ toString pub.length ++ ".")
  else if pub.length = 33 then
    match pub with
    | t :: rest =>
      if t = 2 ∨ t = 3 then .ok (.ecdsa (t :: rest))
      else .error ("Invalid ECDSA public key point: bad compression tag.")
    | [] => .error ("Invalid ECDSA public key point.")
  else
    match pub with
    | 4 :: rest =>
      .ok (.ecdsa ((if rest.getD 63 0 % 2 = 1 then 3 else 2) :: rest.take 32))
    | _ => .error ("Invalid ECDSA public key point: bad uncompressed tag.")

/-- Embedding of `PublicKey.to_bytes_raw`: raw 32 bytes for Ed25519, the
    compressed SEC1 point for ECDSA. -/
def to_bytes_raw : PublicKey → Bytes
  | .ed25519 pub => pub
  | .ecdsa point => point

/-- Embedding of `PublicKey.to_bytes_der` (SubjectPublicKeyInfo via the
    modelled library templates). -/
def to_bytes_der : PublicKey → Bytes
  | .ed25519 pub => ed25519SpkiHeader ++ pub
  | .ecdsa point => ecdsaSpkiHeader ++ point

/-- Embedding of `PublicKey.from_der`: parses the modelled
    SubjectPublicKeyInfo templates, detecting the family. -/
def from_der (der_bytes : Bytes) : Except String PublicKey :=
  if der_bytes.take 12 = ed25519SpkiHeader then
    if (der_bytes.drop 12).length = 32 then
      .ok (.ed25519 (der_bytes.drop 12))
    else
      .error ("Could not parse DER public key: bad Ed25519 payload.")
  else if der_bytes.take 23 = ecdsaSpkiHeader then
    if (der_bytes.drop 23).length = 33 then
      .ok (.ecdsa (der_bytes.drop 23))
    else
      .error ("Could not parse DER public key: bad ECDSA payload.")
  else
    .error ("Could not parse DER public key: unrecognized structure.")

end PublicKey

/-
  ===========================================================================
  Typed identifiers and their wire messages.

  The identifier modules (account_id.py, token_id.py, nft_id.py, topic_id.py,
  file_id.py) are not under src/; only their callers are.  Modelled from the
  spec: value identifiers are shard.realm.num triples (an NFT adds a serial
  number), immutable, with structural equality, and their protobuf conversion
  is a field-for-field repackaging.
  ===========================================================================
-/

/-- Modelled from the spec: an account identifier (shard.realm.num triple). -/
structure AccountId where
  shard : Nat := 0
  realm : Nat := 0
  num : Nat := 0
deriving DecidableEq

/-- Modelled from the spec: a token identifier (shard.realm.num triple). -/
structure TokenId where
  shard : Nat := 0
  realm : Nat := 0
  num : Nat := 0
deriving DecidableEq

/-- Modelled from the spec: an NFT identifier (token identifier plus serial). -/
structure NftId where
  token_id : TokenId
  serial_number : Nat
deriving DecidableEq

/-- Modelled from the spec: a topic identifier (shard.realm.num triple). -/
structure TopicId where
  shard : Nat := 0
  realm : Nat := 0
  num : Nat := 0
deriving DecidableEq

/-- Modelled from the spec: a file identifier (shard.realm.num triple). -/
structure FileId where
  shard : Nat := 0
  realm : Nat := 0
  num : Nat := 0
deriving DecidableEq

/-- Wire message `basic_types_pb2.AccountID`. -/
structure AccountIdProto where
  shardNum : Nat := 0
  realmNum : Nat := 0
  accountNum : Nat := 0
deriving DecidableEq

/-- Wire message `basic_types_pb2.TokenID`. -/
structure TokenIdProto where
  shardNum : Nat := 0
  realmNum : Nat := 0
  tokenNum : Nat := 0
deriving DecidableEq

/-- Wire message `basic_types_pb2.TopicID`. -/
structure TopicIdProto where
  shardNum : Nat := 0
  realmNum : Nat := 0
  topicNum : Nat := 0
deriving DecidableEq

/-- Wire message `basic_types_pb2.FileID`. -/
structure FileIdProto where
  shardNum : Nat := 0
  realmNum : Nat := 0
  fileNum : Nat := 0
deriving DecidableEq

/-- Wire message `basic_types_pb2.NftID`. -/
structure NftIdProto where
  token_ID : TokenIdProto := {}
  serial_number : Nat := 0
deriving DecidableEq

/-- Modelled from the spec: `AccountId._to_proto`, a field repackaging. -/
def AccountId._to_proto (a : AccountId) : AccountIdProto :=
  { shardNum := a.shard, realmNum := a.realm, accountNum := a.num }

/-- Modelled from the spec: `AccountId._from_proto`, a field repackaging. -/
def AccountId._from_proto (p : AccountIdProto) : AccountId :=
  { shard := p.shardNum, realm := p.realmNum, num := p.accountNum }

/-- Modelled from the spec: `TokenId._to_proto`, a field repackaging. -/
def TokenId._to_proto (t : TokenId) : TokenIdProto :=
  { shardNum := t.shard, realmNum := t.realm, tokenNum := t.num }

/-- Modelled from the spec: `TokenId._from_proto`, a field repackaging. -/
def TokenId._from_proto (p : TokenIdProto) : TokenId :=
  { shard := p.shardNum, realm := p.realmNum, num := p.tokenNum }

/-- Modelled from the spec: `TopicId._from_proto`, a field repackaging. -/
def TopicId._from_proto (p : TopicIdProto) : TopicId :=
  { shard := p.shardNum, realm := p.realmNum, num := p.topicNum }

/-- Modelled from the spec: `FileId._from_proto`, a field repackaging. -/
def FileId._from_proto (p : FileIdProto) : FileId :=
  { shard := p.shardNum, realm := p.realmNum, num := p.fileNum }

/-- Modelled from the spec: `NftId._to_proto`, a field repackaging. -/
def NftId._to_proto (n : NftId) : NftIdProto :=
  { token_ID := n.token_id._to_proto, serial_number := n.serial_number }

/-- Modelled from the spec: `NftId._from_proto`, a field repackaging. -/
def NftId._from_proto (p : NftIdProto) : NftId :=
  { token_id := TokenId._from_proto p.token_ID, serial_number := p.serial_number }

/-
  ===========================================================================
  PendingAirdropId (src/src/hiero_sdk_python/tokens/token_airdrop_pending_id.py).

  A frozen dataclass; its implicit constructor runs `__post_init__`, which
  rejects a missing sender or receiver and requires that exactly one of
  token_id / nft_id is set.  Fields that Python permits to be None are
  modelled as Options; the checked construction is `PendingAirdropId.construct`.
  ===========================================================================
-/

/-- Field content of the frozen dataclass `PendingAirdropId`.  Structural
    equality and hashing are derived in Python; DecidableEq matches that. -/
structure PendingAirdropId where
  sender_id : Option AccountId
  receiver_id : Option AccountId
  token_id : Option TokenId := none
  nft_id : Option NftId := none
deriving DecidableEq

/-- Wire message `basic_types_pb2.PendingAirdropId` with its oneof
    token_reference modelled as two optional fields (HasField = isSome). -/
structure PendingAirdropIdProto where
  sender_id : AccountIdProto := {}
  receiver_id : AccountIdProto := {}
  fungible_token_type : Option TokenIdProto := none
  non_fungible_token : Option NftIdProto := none
deriving DecidableEq

namespace PendingAirdropId

/-- Embedding of the dataclass constructor followed by `__post_init__`:
    sender and receiver must not be None, and exactly one of token_id /
    nft_id must be set. -/
def construct (sender_id receiver_id : Option AccountId)
    (token_id : Option TokenId) (nft_id : Option NftId) :
    Except String PendingAirdropId :=
  if sender_id = none then
    .error ("sender_id must not be None")
  else if receiver_id = none then
    .error ("receiver_id must not be None")
  else if token_id.isNone = nft_id.isNone then
    .error ("Exactly one of token_id or nft_id must be set.")
  else
    .ok { sender_id := sender_id, receiver_id := receiver_id,
          token_id := token_id, nft_id := nft_id }

/-- Embedding of `PendingAirdropId._to_proto`: the token branch is taken when
    token_id is set, then the NFT branch; with neither the method raises.
    A None sender or receiver would make the Python attribute access fail,
    modelled as an error. -/
def _to_proto (p : PendingAirdropId) : Except String PendingAirdropIdProto :=
  match p.token_id, p.nft_id with
  | some t, _ =>
    match p.sender_id, p.receiver_id with
    | some s, some r =>
      .ok { sender_id := s._to_proto, receiver_id := r._to_proto,
            fungible_token_type := some t._to_proto,
            non_fungible_token := none }
    | _, _ => .error ("PendingAirdropId missing sender or receiver.")
  | none, some nf =>
    match p.sender_id, p.receiver_id with
    | some s, some r =>
      .ok { sender_id := s._to_proto, receiver_id := r._to_proto,
            fungible_token_type := none,
            non_fungible_token := some nf._to_proto }
    | _, _ => .error ("PendingAirdropId missing sender or receiver.")
  | none, none => .error ("PendingAirdropId must have a token or NFT set.")

/-- Embedding of `PendingAirdropId._from_proto`: rejects a wire message with
    both or neither token reference, then constructs (running `__post_init__`
    through `construct`). -/
def _from_proto (proto : PendingAirdropIdProto) :
    Except String PendingAirdropId :=
  let has_fungible := proto.fungible_token_type.isSome
  let has_nft := proto.non_fungible_token.isSome
  if has_fungible && has_nft then
    .error ("Protobuf contains both token types, only one is allowed.")
  else if !has_fungible && !has_nft then
    .error ("Protobuf contains neither token type.")
  else
    construct (some (AccountId._from_proto proto.sender_id))
      (some (AccountId._from_proto proto.receiver_id))
      (proto.fungible_token_type.map TokenId._from_proto)
      (proto.non_fungible_token.map NftId._from_proto)

end PendingAirdropId

/-
  ===========================================================================
  Transaction base state machine (src/src/transaction/transaction.py).

  The frozen/unfrozen flag is materialized as transaction_body_bytes being
  set or not.  The signature collection is the protobuf SignatureMap: an
  ordered list of SignaturePair messages whose oneof signature field is
  modelled as a small sum type.  The collaborator calls made by `sign`
  (`private_key.sign(body_bytes)` and
  `public_key().public_bytes(Raw, Raw)`) are modelled as parameters: an
  arbitrary signing function over the body bytes and the raw public-key
  bytes it pairs with, so theorems quantify over every key of either family.

  The variant classes under src/src/hiero_sdk_python inherit from a sibling
  base module that is not under src/; its frozen guard and base body builder
  are modelled below on this same structure (see the doc comments there).
  ===========================================================================
-/

/-- Wire message `basic_types_pb2.TransactionID` (account plus valid-start
    timestamp). -/
structure TransactionID where
  accountID : AccountIdProto := {}
  validStartSeconds : Nat := 0
  validStartNanos : Nat := 0
deriving DecidableEq

/-- The oneof signature field of `basic_types_pb2.SignaturePair`. -/
inductive SignatureOneof where
  | ed25519 (sig : Bytes)
  | ECDSA_secp256k1 (sig : Bytes)
  | contract (sig : Bytes)
deriving DecidableEq

/-- Wire message `basic_types_pb2.SignaturePair`. -/
structure SignaturePair where
  pubKeyPrefixBytes : Bytes
  signature : SignatureOneof
deriving DecidableEq

/-- Default transaction fee of the base class (`_default_transaction_fee`). -/
def defaultTransactionFee : Nat := 2000000

/-- State of the base `Transaction` (the fields set by `__init__`).  The
    signature map is the ordered list of appended pairs. -/
structure Transaction where
  transaction_id : Option TransactionID := none
  node_account_id : Option AccountId := none
  transaction_fee : Option Nat := none
  transaction_valid_duration : Nat := 120
  generate_record : Bool := false
  memo : String := ""
  transaction_body_bytes : Option Bytes := none
  signature_map : List SignaturePair := []
  _default_transaction_fee : Nat := defaultTransactionFee
  operator_account_id : Option AccountId := none
deriving DecidableEq

namespace Transaction

/-- Embedding of `Transaction._require_not_frozen`: raises once the body
    bytes are set.  (The sibling hiero base module is not under src/; its
    guard is modelled from the spec with identical behavior: any setter is
    allowed only while unfrozen.) -/
def _require_not_frozen (t : Transaction) : Except String Unit :=
  if t.transaction_body_bytes ≠ none then
    .error ("Transaction is immutable; it has been frozen.")
  else
    .ok ()

/-- Embedding of `Transaction.set_transaction_memo`: guard, set, return self
    (the returned value is the updated state). -/
def set_transaction_memo (t : Transaction) (memo : String) :
    Except String Transaction := do
  _ ← t._require_not_frozen
  .ok { t with memo := memo }

/-- Embedding of `Transaction.sign`.  `sign_fn` stands for the collaborator
    call `private_key.sign(...)` on the body bytes and `public_key_bytes` for
    `private_key.public_key().public_bytes(Raw, Raw)`; `build_body` stands
    for the variant's `build_transaction_body().SerializeToString()`, used
    when the transaction is not yet frozen.  The appended SignaturePair puts
    the computed signature in the ed25519 field unconditionally. -/
def sign (t : Transaction) (sign_fn : Bytes → Bytes)
    (public_key_bytes : Bytes) (build_body : Except String Bytes) :
    Except String Transaction := do
  let body_bytes ← match t.transaction_body_bytes with
    | some b => pure b
    | none => build_body
  let signature := sign_fn body_bytes
  let sig_pair : SignaturePair :=
    { pubKeyPrefixBytes := public_key_bytes,
      signature := .ed25519 signature }
  .ok { t with transaction_body_bytes := some body_bytes,
               signature_map := t.signature_map ++ [sig_pair] }

/-- Embedding of `Transaction.is_signed_by`: true iff some pair's prefix
    equals the key's raw bytes. -/
def is_signed_by (t : Transaction) (public_key_bytes : Bytes) : Bool :=
  t.signature_map.any (fun sp => sp.pubKeyPrefixBytes = public_key_bytes)

end Transaction

/-- The oneof data field of `transaction_body_pb2.TransactionBody`, restricted
    to the variants treated here. -/
inductive TransactionBodyData where
  | tokenClaimAirdrop (pending_airdrops : List PendingAirdropIdProto)
  | token_pause (token : TokenIdProto)
  | tokenAssociate (account : AccountIdProto) (tokens : List TokenIdProto)
deriving DecidableEq

/-- Wire message `transaction_body_pb2.TransactionBody` with its common
    fields and the variant data. -/
structure TransactionBody where
  transactionID : TransactionID
  nodeAccountID : AccountIdProto
  transactionFee : Nat
  transactionValidDuration : Nat
  generateRecord : Bool
  memo : String
  data : Option TransactionBodyData := none
deriving DecidableEq

/-- Modelled from the spec: `build_base_transaction_body` of the hiero base
    Transaction module, which is not under src/ (modelled after the spec's
    freeze/build contract and the src sibling
    src/src/transaction/transaction.py): the common fields are embedded; a
    missing transaction id or node id fails with a missing-field error.  The
    sibling's fallback that synthesizes a transaction id from the operator
    account and the wall clock is outside the pure model; theorems supply an
    explicit transaction id instead. -/
def Transaction.build_base_transaction_body (t : Transaction) :
    Except String TransactionBody :=
  match t.transaction_id with
  | none => .error ("Transaction ID is not set.")
  | some txid =>
    match t.node_account_id with
    | none => .error ("Node account ID is not set.")
    | some node =>
      .ok { transactionID := txid,
            nodeAccountID := node._to_proto,
            transactionFee := t.transaction_fee.getD t._default_transaction_fee,
            transactionValidDuration := t.transaction_valid_duration,
            generateRecord := t.generate_record,
            memo := t.memo }

/-
  ===========================================================================
  TokenPauseTransaction (src/src/hiero_sdk_python/tokens/token_pause_transaction.py)
  and TokenAssociateTransaction (src/src/tokens/token_associate_transaction.py).
  ===========================================================================
-/

/-- State of `TokenPauseTransaction`: the base transaction plus token_id;
    its `__init__` overrides the default fee with 3_000_000_000. -/
structure TokenPauseTransaction extends Transaction where
  token_id : Option TokenId := none
deriving DecidableEq

/-- Embedding of `TokenPauseTransaction.__init__(token_id)`. -/
def TokenPauseTransaction.init (token_id : Option TokenId) :
    TokenPauseTransaction :=
  { token_id := token_id, _default_transaction_fee := 3000000000 }

/-- Embedding of `TokenPauseTransaction.set_token_id`: frozen guard, then
    set, then return self. -/
def TokenPauseTransaction.set_token_id (t : TokenPauseTransaction)
    (token_id : TokenId) : Except String TokenPauseTransaction := do
  _ ← t.toTransaction._require_not_frozen
  .ok { t with token_id := some token_id }

/-- State of `TokenAssociateTransaction`: the base transaction plus the
    account and token list set by its setup method. -/
structure TokenAssociateTransaction extends Transaction where
  account_id : Option AccountId := none
  token_ids : List TokenId := []
deriving DecidableEq

/-- Embedding of `TokenAssociateTransaction.set_association_details`: the
    source assigns both fields directly, with no frozen guard and no
    validation (the Python method returns None; the model returns the
    updated state). -/
def TokenAssociateTransaction.set_association_details
    (t : TokenAssociateTransaction) (account_id : AccountId)
    (token_ids : List TokenId) : TokenAssociateTransaction :=
  { t with account_id := some account_id, token_ids := token_ids }

/-
  ===========================================================================
  TokenClaimAirdropTransaction
  (src/src/hiero_sdk_python/tokens/token_airdrop_pending_claim.py).
  ===========================================================================
-/

/-- State of `TokenClaimAirdropTransaction`: the base transaction plus the
    private list of pending airdrop ids. -/
structure TokenClaimAirdropTransaction extends Transaction where
  _pending_airdrop_ids : List PendingAirdropId := []
deriving DecidableEq

namespace TokenClaimAirdropTransaction

/-- Class constant MAX_IDS. -/
def MAX_IDS : Nat := 10

/-- Class constant MIN_IDS. -/
def MIN_IDS : Nat := 1

/-- Embedding of `__init__(pending_airdrop_ids)`: stores a copy of the given
    list (`list(pending_airdrop_ids or [])`), with no validation. -/
def init (pending_airdrop_ids : Option (List PendingAirdropId)) :
    TokenClaimAirdropTransaction :=
  { _pending_airdrop_ids :=
      match pending_airdrop_ids with
      | none => []
      | some l => l }

/-- Embedding of `_validate_all`: at most MAX_IDS elements and no duplicates
    (`len(set(ids)) != n`, i.e. the count of distinct elements differs from
    the length). -/
def _validate_all (ids : List PendingAirdropId) : Except String Unit :=
  let n := ids.length
  if MAX_IDS < n then
    .error ("Up to 10 airdrops can be claimed at once (got "
      ++ toString n ++ ").")
  else if ids.dedup.length ≠ n then
    .error ("Duplicate airdrop IDs are not allowed.")
  else
    .ok ()

/-- Embedding of `_validate_final`: at least MIN_IDS, then `_validate_all`. -/
def _validate_final (t : TokenClaimAirdropTransaction) :
    Except String Unit := do
  let n := t._pending_airdrop_ids.length
  if n < MIN_IDS then
    .error ("You must claim at least 1 airdrop (got " ++ toString n ++ ").")
  else
    _validate_all t._pending_airdrop_ids

/-- Embedding of `add_pending_airdrop_ids`: frozen guard, extend into a
    candidate list, validate the combined candidate, and only then commit. -/
def add_pending_airdrop_ids (t : TokenClaimAirdropTransaction)
    (pending_airdrop_ids : List PendingAirdropId) :
    Except String TokenClaimAirdropTransaction := do
  _ ← t.toTransaction._require_not_frozen
  let candidate := t._pending_airdrop_ids ++ pending_airdrop_ids
  _ ← _validate_all candidate
  .ok { t with _pending_airdrop_ids := candidate }

/-- Embedding of the list comprehension inside
    `_pending_airdrop_ids_to_proto`: converts each id, propagating the first
    failure. -/
def idsToProto : List PendingAirdropId →
    Except String (List PendingAirdropIdProto)
  | [] => .ok []
  | p :: rest => do
    let q ← p._to_proto
    let qs ← idsToProto rest
    .ok (q :: qs)

/-- Embedding of the list comprehension inside `_from_proto`: decodes each
    wire id (each decode runs `__post_init__`), propagating the first
    failure. -/
def idsFromProto : List PendingAirdropIdProto →
    Except String (List PendingAirdropId)
  | [] => .ok []
  | p :: rest => do
    let q ← PendingAirdropId._from_proto p
    let qs ← idsFromProto rest
    .ok (q :: qs)

/-- Embedding of `_from_proto`: replaces the stored list with the decoded
    one, then validates it with `_validate_all`. -/
def _from_proto (t : TokenClaimAirdropTransaction)
    (pending : List PendingAirdropIdProto) :
    Except String TokenClaimAirdropTransaction := do
  let pending_airdrops ← idsFromProto pending
  _ ← _validate_all pending_airdrops
  .ok { t with _pending_airdrop_ids := pending_airdrops }

/-- Embedding of `build_transaction_body`: final validation, conversion of
    the ids, base body, then the claim-airdrop data is copied in. -/
def build_transaction_body (t : TokenClaimAirdropTransaction) :
    Except String TransactionBody := do
  _ ← t._validate_final
  let pending ← idsToProto t._pending_airdrop_ids
  let transaction_body ← t.toTransaction.build_base_transaction_body
  .ok { transaction_body with data := some (.tokenClaimAirdrop pending) }

end TokenClaimAirdropTransaction

/-
  ===========================================================================
  TransactionReceipt (src/src/hiero_sdk_python/transaction/transaction_receipt.py).
  ===========================================================================
-/

/-- Wire message `transaction_receipt_pb2.TransactionReceipt`: each optional
    embedded identifier's HasField flag is isSome of the Option. -/
structure TransactionReceiptProto where
  status : Nat := 0
  tokenID : Option TokenIdProto := none
  topicID : Option TopicIdProto := none
  accountID : Option AccountIdProto := none
  fileID : Option FileIdProto := none
  serialNumbers : List Nat := []
deriving DecidableEq

/-- State of `TransactionReceipt`: the constructor stores the transaction id,
    the wire status, and the underlying wire receipt. -/
structure TransactionReceipt where
  _transaction_id : Option TransactionID := none
  status : Nat
  _receipt_proto : TransactionReceiptProto
deriving DecidableEq

namespace TransactionReceipt

/-- Embedding of `TransactionReceipt._from_proto` (the constructor). -/
def _from_proto (proto : TransactionReceiptProto)
    (transaction_id : Option TransactionID) : TransactionReceipt :=
  { _transaction_id := transaction_id, status := proto.status,
    _receipt_proto := proto }

/-- Embedding of the `tokenId` property: present only if the wire field is
    set and tokenNum is non-zero. -/
def tokenId (r : TransactionReceipt) : Option TokenId :=
  match r._receipt_proto.tokenID with
  | some tp => if tp.tokenNum ≠ 0 then some (TokenId._from_proto tp) else none
  | none => none

/-- Embedding of the `topicId` property: present only if the wire field is
    set and topicNum is non-zero. -/
def topicId (r : TransactionReceipt) : Option TopicId :=
  match r._receipt_proto.topicID with
  | some tp => if tp.topicNum ≠ 0 then some (TopicId._from_proto tp) else none
  | none => none

/-- Embedding of the `accountId` property: present only if the wire field is
    set and accountNum is non-zero. -/
def accountId (r : TransactionReceipt) : Option AccountId :=
  match r._receipt_proto.accountID with
  | some ap =>
    if ap.accountNum ≠ 0 then some (AccountId._from_proto ap) else none
  | none => none

/-- Embedding of the `file_id` property: present only if the wire field is
    set and fileNum is non-zero. -/
def file_id (r : TransactionReceipt) : Option FileId :=
  match r._receipt_proto.fileID with
  | some fp => if fp.fileNum ≠ 0 then some (FileId._from_proto fp) else none
  | none => none

end TransactionReceipt


/-
  ===========================================================================
  Helper lemmas.
  ===========================================================================
-/

/-- Python's duplicate check `len(set(ids)) != n` in terms of Nodup: the
    number of distinct elements equals the length exactly when the list has
    no duplicates. -/
theorem dedup_length_eq_iff_nodup (l : List PendingAirdropId) :
    l.dedup.length = l.length ↔ l.Nodup := by
  constructor
  · intro h
    have hs : List.Sublist l.dedup l := List.dedup_sublist l
    have heq : l.dedup = l := List.Sublist.eq_of_length hs h
    rw [← heq]
    exact l.nodup_dedup
  · intro h
    rw [List.dedup_eq_self.mpr h]

/-- A pending airdrop id with a sender, a receiver and at least one asset
    reference converts to its wire form without error. -/
theorem to_proto_ok (p : PendingAirdropId)
    (hs : p.sender_id ≠ none) (hr : p.receiver_id ≠ none)
    (hasset : p.token_id ≠ none ∨ p.nft_id ≠ none) :
    ∃ q, p._to_proto = .ok q := by
  obtain ⟨s, hs'⟩ := Option.ne_none_iff_exists'.mp hs
  obtain ⟨r, hr'⟩ := Option.ne_none_iff_exists'.mp hr
  cases hq : p._to_proto with
  | ok v => exact ⟨v, rfl⟩
  | error e =>
    exfalso
    match htok : p.token_id with
    | some tok =>
      simp [PendingAirdropId._to_proto, htok, hs', hr'] at hq
    | none =>
      have hnf : p.nft_id ≠ none := by
        rcases hasset with h1 | h2
        · exact absurd htok h1
        · exact h2
      obtain ⟨nf, hnf'⟩ := Option.ne_none_iff_exists'.mp hnf
      simp [PendingAirdropId._to_proto, htok, hnf', hs', hr'] at hq

/-- The list conversion succeeds on a list of well-formed ids. -/
theorem idsToProto_ok (l : List PendingAirdropId)
    (h : ∀ p ∈ l, p.sender_id ≠ none ∧ p.receiver_id ≠ none ∧
      (p.token_id ≠ none ∨ p.nft_id ≠ none)) :
    ∃ ps, TokenClaimAirdropTransaction.idsToProto l = .ok ps := by
  induction l with
  | nil => exact ⟨[], rfl⟩
  | cons p rest ih =>
    obtain ⟨hs, hr, hasset⟩ := h p (List.mem_cons_self p rest)
    obtain ⟨ps, hps⟩ := ih (fun q hq => h q (List.mem_cons_of_mem p hq))
    obtain ⟨q, hq⟩ := to_proto_ok p hs hr hasset
    exact ⟨q :: ps, by
      simp [TokenClaimAirdropTransaction.idsToProto, hq, hps, Bind.bind,
        Except.bind]⟩

/-
  ===========================================================================
  Claims.
  ===========================================================================
-/

/-- C10: the TokenClaimAirdropTransaction constructor accepts every list of
    pending airdrop ids — including lists longer than 10 and lists with
    structural duplicates — without raising, and stores exactly that list
    (the model of `list(...)`, a copy); the cardinality and uniqueness bounds
    live in `_validate_all`, the check invoked by add_pending_airdrop_ids,
    _from_proto and the body build, which rejects such a list. -/
theorem c10_constructor_accepts_any_list :
    ∀ ids : List PendingAirdropId,
      (TokenClaimAirdropTransaction.init (some ids))._pending_airdrop_ids = ids ∧
      (TokenClaimAirdropTransaction.init (some ids)).transaction_body_bytes = none ∧
      (TokenClaimAirdropTransaction.init none)._pending_airdrop_ids = [] ∧
      (TokenClaimAirdropTransaction.MAX_IDS < ids.length ∨ ¬ ids.Nodup →
        ∃ e, TokenClaimAirdropTransaction._validate_all ids = .error e) := by
  intro ids
  refine ⟨rfl, rfl, rfl, ?_⟩
  intro hbad
  cases hv : TokenClaimAirdropTransaction._validate_all ids with
  | error e => exact ⟨e, rfl⟩
  | ok u =>
    exfalso
    by_cases hlen : TokenClaimAirdropTransaction.MAX_IDS < ids.length
    · simp [TokenClaimAirdropTransaction._validate_all, hlen] at hv
    · have hdup : ¬ ids.Nodup := by
        rcases hbad with h | h
        · exact absurd h hlen
        · exact h
      have hne : ids.dedup.length ≠ ids.length :=
        fun hEq => hdup ((dedup_length_eq_iff_nodup ids).mp hEq)
      simp [TokenClaimAirdropTransaction._validate_all, hlen, hne] at hv

/-- C10 witness: an 11-element list (with duplicates) is accepted and stored
    verbatim by the constructor, while the shared validator rejects it. -/
theorem c10_witness :
    (TokenClaimAirdropTransaction.init (some (List.replicate 11
        ⟨some {}, some {}, some {}, none⟩)))._pending_airdrop_ids
      = List.replicate 11 ⟨some {}, some {}, some {}, none⟩ ∧
    ∃ e, TokenClaimAirdropTransaction._validate_all (List.replicate 11
        ⟨some {}, some {}, some {}, none⟩) = .error e :=
  ⟨(c10_constructor_accepts_any_list _).1,
   (c10_constructor_accepts_any_list _).2.2.2 (Or.inl (by decide))⟩

/-- C5: constructing a PendingAirdropId with both token_id and nft_id set, or
    with neither, fails with a validation error; with exactly one set it
    succeeds and yields the value holding exactly those fields; equality of
    the resulting (immutable) values is structural, i.e. field-wise. -/
theorem c5_pending_airdrop_id_construction :
    ∀ (s r : AccountId) (tok : TokenId) (nf : NftId),
      PendingAirdropId.construct (some s) (some r) (some tok) (some nf)
        = .error ("Exactly one of token_id or nft_id must be set.") ∧
      PendingAirdropId.construct (some s) (some r) none none
        = .error ("Exactly one of token_id or nft_id must be set.") ∧
      PendingAirdropId.construct (some s) (some r) (some tok) none
        = .ok { sender_id := some s, receiver_id := some r,
                token_id := some tok, nft_id := none } ∧
      PendingAirdropId.construct (some s) (some r) none (some nf)
        = .ok { sender_id := some s, receiver_id := some r,
                token_id := none, nft_id := some nf } ∧
      (∀ p q : PendingAirdropId,
        p = q ↔ p.sender_id = q.sender_id ∧ p.receiver_id = q.receiver_id ∧
          p.token_id = q.token_id ∧ p.nft_id = q.nft_id) := by
  intro s r tok nf
  refine ⟨rfl, rfl, rfl, rfl, ?_⟩
  intro p q
  cases p
  cases q
  simp [PendingAirdropId.mk.injEq]

/-- C8: each optional embedded identifier accessor of a TransactionReceipt
    (tokenId, topicId, accountId, file_id) returns None when the wire field
    is absent, returns None when the wire field is marked present but its
    numeric component is zero, and returns the typed identifier exactly when
    the field is present with a non-zero numeric component. -/
theorem c8_receipt_optional_fields :
    ∀ (proto : TransactionReceiptProto) (txid : Option TransactionID),
      (∀ tp, proto.tokenID = some tp →
        (tp.tokenNum = 0 →
          (TransactionReceipt._from_proto proto txid).tokenId = none) ∧
        (tp.tokenNum ≠ 0 →
          (TransactionReceipt._from_proto proto txid).tokenId
            = some (TokenId._from_proto tp))) ∧
      (proto.tokenID = none →
        (TransactionReceipt._from_proto proto txid).tokenId = none) ∧
      (∀ tp, proto.topicID = some tp →
        (tp.topicNum = 0 →
          (TransactionReceipt._from_proto proto txid).topicId = none) ∧
        (tp.topicNum ≠ 0 →
          (TransactionReceipt._from_proto proto txid).topicId
            = some (TopicId._from_proto tp))) ∧
      (proto.topicID = none →
        (TransactionReceipt._from_proto proto txid).topicId = none) ∧
      (∀ ap, proto.accountID = some ap →
        (ap.accountNum = 0 →
          (TransactionReceipt._from_proto proto txid).accountId = none) ∧
        (ap.accountNum ≠ 0 →
          (TransactionReceipt._from_proto proto txid).accountId
            = some (AccountId._from_proto ap))) ∧
      (proto.accountID = none →
        (TransactionReceipt._from_proto proto txid).accountId = none) ∧
      (∀ fp, proto.fileID = some fp →
        (fp.fileNum = 0 →
          (TransactionReceipt._from_proto proto txid).file_id = none) ∧
        (fp.fileNum ≠ 0 →
          (TransactionReceipt._from_proto proto txid).file_id
            = some (FileId._from_proto fp))) ∧
      (proto.fileID = none →
        (TransactionReceipt._from_proto proto txid).file_id = none) := by
  intro proto txid
  refine ⟨?_, ?_, ?_, ?_, ?_, ?_, ?_, ?_⟩ <;>
    first
    | (intro tp htp
       constructor <;> intro h <;>
         simp [TransactionReceipt._from_proto, TransactionReceipt.tokenId,
           TransactionReceipt.topicId, TransactionReceipt.accountId,
           TransactionReceipt.file_id, htp, h])
    | (intro hnone
       simp [TransactionReceipt._from_proto, TransactionReceipt.tokenId,
         TransactionReceipt.topicId, TransactionReceipt.accountId,
         TransactionReceipt.file_id, hnone])

/-- C8 witness: a receipt whose wire tokenID is marked present with
    tokenNum = 0 exposes tokenId = none, while a present topicID with
    topicNum = 5 is exposed as a typed TopicId. -/
theorem c8_witness :
    (TransactionReceipt._from_proto
        { tokenID := some {}, topicID := some { topicNum := 5 } } none).tokenId
      = none ∧
    (TransactionReceipt._from_proto
        { tokenID := some {}, topicID := some { topicNum := 5 } } none).topicId
      = some (TopicId._from_proto { topicNum := 5 }) :=
  ⟨((c8_receipt_optional_fields
      { tokenID := some {}, topicID := some { topicNum := 5 } } none).1
      {} rfl).1 rfl,
   ((c8_receipt_optional_fields
      { tokenID := some {}, topicID := some { topicNum := 5 } } none).2.2.1
      { topicNum := 5 } rfl).2 (by decide)⟩

/-- C1: the claim that EVERY field setter on a frozen transaction raises an
    immutability error and leaves the transaction unchanged fails for
    `TokenAssociateTransaction.set_association_details`, which performs no
    frozen-state guard: on a frozen transaction (body bytes set) it silently
    overwrites account_id and token_ids without error.  By contrast the
    guarded setters `set_transaction_memo` and `set_token_id` do raise the
    immutability error on the same frozen state, as the claim demands. -/
theorem c1_set_association_details_skips_frozen_guard :
    (TokenAssociateTransaction.set_association_details
        { transaction_body_bytes := some [1] } { num := 7 } [{ num := 9 }]).account_id
      = some { num := 7 } ∧
    (TokenAssociateTransaction.set_association_details
        { transaction_body_bytes := some [1] } { num := 7 } [{ num := 9 }]).token_ids
      = [{ num := 9 }] ∧
    (TokenAssociateTransaction.set_association_details
        { transaction_body_bytes := some [1] } { num := 7 }
        [{ num := 9 }]).transaction_body_bytes
      = some [1] ∧
    ({ transaction_body_bytes := some [1] } :
        TokenAssociateTransaction).account_id = none ∧
    Transaction.set_transaction_memo { transaction_body_bytes := some [1] } ("m")
      = .error ("Transaction is immutable; it has been frozen.") ∧
    TokenPauseTransaction.set_token_id
        { transaction_body_bytes := some [1] } { num := 9 }
      = .error ("Transaction is immutable; it has been frozen.") :=
  ⟨rfl, rfl, rfl, rfl, rfl, rfl⟩

/-- C2: signing twice with the same key appends two signature pairs — the
    second call is neither suppressed nor deduplicated — and each call
    returns the transaction itself (modelled as the updated state) with only
    the body bytes and the signature map touched.  `sign_fn` and
    `public_key_bytes` stand for the key's collaborator operations, so the
    statement covers every private key; the hypothesis states that the body
    bytes are available (already frozen, or buildable), exactly the
    condition under which the Python method completes. -/
theorem c2_sign_twice_appends_two_pairs :
    ∀ (t : Transaction) (sign_fn : Bytes → Bytes) (public_key_bytes : Bytes)
      (build_body : Except String Bytes) (bb : Bytes),
      (t.transaction_body_bytes = some bb ∨
        (t.transaction_body_bytes = none ∧ build_body = .ok bb)) →
      ∃ t1 t2,
        t.sign sign_fn public_key_bytes build_body = .ok t1 ∧
        t1.sign sign_fn public_key_bytes build_body = .ok t2 ∧
        t1 = { t with transaction_body_bytes := some bb,
                      signature_map := t.signature_map ++
                        [{ pubKeyPrefixBytes := public_key_bytes,
                           signature := .ed25519 (sign_fn bb) }] } ∧
        t2 = { t1 with signature_map := t1.signature_map ++
                        [{ pubKeyPrefixBytes := public_key_bytes,
                           signature := .ed25519 (sign_fn bb) }] } ∧
        t2.signature_map.length = t.signature_map.length + 2 := by
  intro t sign_fn public_key_bytes build_body bb h
  have h1 : t.sign sign_fn public_key_bytes build_body =
      .ok { t with transaction_body_bytes := some bb,
                   signature_map := t.signature_map ++
                     [{ pubKeyPrefixBytes := public_key_bytes,
                        signature := .ed25519 (sign_fn bb) }] } := by
    rcases h with hsome | ⟨hnone, hbuild⟩
    · simp [Transaction.sign, hsome]
    · simp [Transaction.sign, hnone, hbuild, Bind.bind, Except.bind]
  refine ⟨_, _, h1, ?_, rfl, rfl, ?_⟩
  · simp [Transaction.sign]
  · simp

/-- C2 witness: a frozen transaction signed twice with a concrete key model
    carries exactly two appended pairs. -/
theorem c2_witness :
    ∃ t1 t2,
      Transaction.sign { transaction_body_bytes := some [5] }
          (fun _ => [1]) [2] (.error ("no body")) = .ok t1 ∧
      t1.sign (fun _ => [1]) [2] (.error ("no body")) = .ok t2 ∧
      t1 = { ({ transaction_body_bytes := some [5] } : Transaction) with
              transaction_body_bytes := some [5],
              signature_map := ([] : List SignaturePair) ++
                [{ pubKeyPrefixBytes := [2], signature := .ed25519 [1] }] } ∧
      t2 = { t1 with signature_map := t1.signature_map ++
                [{ pubKeyPrefixBytes := [2], signature := .ed25519 [1] }] } ∧
      t2.signature_map.length = ([] : List SignaturePair).length + 2 :=
  c2_sign_twice_appends_two_pairs { transaction_body_bytes := some [5] }
    (fun _ => [1]) [2] (.error ("no body")) [5] (Or.inl rfl)

/-- C9: whenever the base `Transaction.sign` completes, the pair it appends
    carries the computed signature in the ed25519 field of the SignaturePair
    and uses the raw public-key encoding as the prefix, regardless of which
    key family produced the signature; every pair not already present came
    from this construction, so no ECDSA-specific signature field is ever
    used by this operation. -/
theorem c9_sign_stores_signature_in_ed25519_field :
    ∀ (t : Transaction) (sign_fn : Bytes → Bytes) (public_key_bytes : Bytes)
      (build_body : Except String Bytes) (t' : Transaction),
      t.sign sign_fn public_key_bytes build_body = .ok t' →
      ∃ bb,
        (t.transaction_body_bytes = some bb ∨
          (t.transaction_body_bytes = none ∧ build_body = .ok bb)) ∧
        t'.signature_map = t.signature_map ++
          [{ pubKeyPrefixBytes := public_key_bytes,
             signature := .ed25519 (sign_fn bb) }] ∧
        (∀ sp ∈ t'.signature_map, sp ∈ t.signature_map ∨
          (sp.pubKeyPrefixBytes = public_key_bytes ∧
            ∃ s, sp.signature = .ed25519 s)) := by
  intro t sign_fn public_key_bytes build_body t' hok
  have main : ∃ bb,
      (t.transaction_body_bytes = some bb ∨
        (t.transaction_body_bytes = none ∧ build_body = .ok bb)) ∧
      t'.signature_map = t.signature_map ++
        [{ pubKeyPrefixBytes := public_key_bytes,
           signature := .ed25519 (sign_fn bb) }] := by
    cases hbody : t.transaction_body_bytes with
    | some b =>
      refine ⟨b, Or.inl rfl, ?_⟩
      simp [Transaction.sign, hbody] at hok
      rw [← hok]
    | none =>
      cases hbuild : build_body with
      | error e =>
        exfalso
        simp [Transaction.sign, hbody, hbuild, Bind.bind, Except.bind] at hok
      | ok b =>
        refine ⟨b, Or.inr ⟨rfl, rfl⟩, ?_⟩
        simp [Transaction.sign, hbody, hbuild, Bind.bind, Except.bind] at hok
        rw [← hok]
  obtain ⟨bb, hsrc, hmap⟩ := main
  refine ⟨bb, hsrc, hmap, ?_⟩
  intro sp hsp
  rw [hmap] at hsp
  rcases List.mem_append.mp hsp with hold | hnew
  · exact Or.inl hold
  · rw [List.mem_singleton] at hnew
    subst hnew
    exact Or.inr ⟨rfl, ⟨sign_fn bb, rfl⟩⟩

/-- C9 witness: a concrete frozen transaction signed with a concrete key
    model appends exactly one pair whose signature sits in the ed25519
    field. -/
theorem c9_witness :
    ∃ bb,
      (some [5] = some bb ∨ ((some [5] : Option Bytes) = none ∧
        (.error ("no body") : Except String Bytes) = .ok bb)) ∧
      ({ ({ transaction_body_bytes := some [5] } : Transaction) with
          transaction_body_bytes := some [5],
          signature_map := ([] : List SignaturePair) ++
            [{ pubKeyPrefixBytes := [2],
               signature := .ed25519 [1] }] } : Transaction).signature_map
        = ([] : List SignaturePair) ++
          [{ pubKeyPrefixBytes := [2], signature := .ed25519 [1] }] ∧
      (∀ sp ∈ ({ ({ transaction_body_bytes := some [5] } : Transaction) with
          transaction_body_bytes := some [5],
          signature_map := ([] : List SignaturePair) ++
            [{ pubKeyPrefixBytes := [2],
               signature := .ed25519 [1] }] } : Transaction).signature_map,
        sp ∈ ([] : List SignaturePair) ∨
          (sp.pubKeyPrefixBytes = [2] ∧ ∃ s, sp.signature = .ed25519 s)) :=
  c9_sign_stores_signature_in_ed25519_field
    { transaction_body_bytes := some [5] } (fun _ => [1]) [2]
    (.error ("no body")) _ rfl

/-- C3: on an unfrozen TokenClaimAirdropTransaction, add_pending_airdrop_ids
    validates the combined candidate list before committing: if the combined
    list would exceed 10 elements or contain a structural duplicate it
    raises and (the Except model of exception propagation) the stored list
    is still the prior one; otherwise the stored list becomes exactly the
    prior list extended by the new ids, with the rest of the transaction
    unchanged. -/
theorem c3_add_pending_airdrop_ids_validate_before_mutate :
    ∀ (t : TokenClaimAirdropTransaction) (xs : List PendingAirdropId),
      t.transaction_body_bytes = none →
      ((TokenClaimAirdropTransaction.MAX_IDS <
          (t._pending_airdrop_ids ++ xs).length ∨
        ¬ (t._pending_airdrop_ids ++ xs).Nodup) →
        ∃ e, t.add_pending_airdrop_ids xs = .error e) ∧
      ((t._pending_airdrop_ids ++ xs).length ≤
          TokenClaimAirdropTransaction.MAX_IDS →
        (t._pending_airdrop_ids ++ xs).Nodup →
        t.add_pending_airdrop_ids xs =
          .ok { t with _pending_airdrop_ids :=
                  t._pending_airdrop_ids ++ xs }) := by
  intro t xs hfrozen
  have hguard : t.toTransaction._require_not_frozen = .ok () := by
    simp [Transaction._require_not_frozen, hfrozen]
  constructor
  · intro hbad
    have hverr : ∃ e, TokenClaimAirdropTransaction._validate_all
        (t._pending_airdrop_ids ++ xs) = .error e := by
      by_cases hlen : TokenClaimAirdropTransaction.MAX_IDS <
          (t._pending_airdrop_ids ++ xs).length
      · refine ⟨"Up to 10 airdrops can be claimed at once (got "
          ++ toString (t._pending_airdrop_ids ++ xs).length ++ ").", ?_⟩
        simp only [TokenClaimAirdropTransaction._validate_all]
        rw [if_pos hlen]
      · have hdup : ¬ (t._pending_airdrop_ids ++ xs).Nodup := by
          rcases hbad with h | h
          · exact absurd h hlen
          · exact h
        have hne : (t._pending_airdrop_ids ++ xs).dedup.length ≠
            (t._pending_airdrop_ids ++ xs).length :=
          fun hEq => hdup ((dedup_length_eq_iff_nodup _).mp hEq)
        refine ⟨"Duplicate airdrop IDs are not allowed.", ?_⟩
        simp only [TokenClaimAirdropTransaction._validate_all]
        rw [if_neg hlen, if_pos hne]
    obtain ⟨e, he⟩ := hverr
    exact ⟨e, by
      simp [TokenClaimAirdropTransaction.add_pending_airdrop_ids, hguard,
        he, Bind.bind, Except.bind]⟩
  · intro hlen hnodup
    have hvalid : TokenClaimAirdropTransaction._validate_all
        (t._pending_airdrop_ids ++ xs) = .ok () := by
      have hEq : (t._pending_airdrop_ids ++ xs).dedup.length =
          (t._pending_airdrop_ids ++ xs).length :=
        (dedup_length_eq_iff_nodup _).mpr hnodup
      simp only [TokenClaimAirdropTransaction._validate_all]
      rw [if_neg (Nat.not_lt.mpr hlen), if_neg (fun hcon => hcon hEq)]
    simp [TokenClaimAirdropTransaction.add_pending_airdrop_ids, hguard,
      hvalid, Bind.bind, Except.bind]

/-- C3 witness: adding one id to a fresh empty transaction succeeds and
    stores exactly that id. -/
theorem c3_witness :
    TokenClaimAirdropTransaction.add_pending_airdrop_ids
        (TokenClaimAirdropTransaction.init (some []))
        [⟨some {}, some {}, some {}, none⟩]
      = .ok { TokenClaimAirdropTransaction.init (some []) with
              _pending_airdrop_ids :=
                ([] : List PendingAirdropId) ++
                  [⟨some {}, some {}, some {}, none⟩] } :=
  (c3_add_pending_airdrop_ids_validate_before_mutate
      (TokenClaimAirdropTransaction.init (some []))
      [⟨some {}, some {}, some {}, none⟩] rfl).2
    (by decide) (by decide)

/-- C4: with the base fields resolvable (an explicit transaction id and node
    id, as freeze would set them) and well-formed ids, building the
    transaction body of a TokenClaimAirdropTransaction with zero pending
    airdrop ids raises the "too few" error, while building with a
    duplicate-free list of exactly 1 or exactly 10 ids succeeds and embeds
    the converted ids; the minimum bound thus lives only in the build-time
    validation (`_validate_final`), not in the add-time validation. -/
theorem c4_build_transaction_body_min_bound :
    ∀ (t : TokenClaimAirdropTransaction) (txid : TransactionID)
      (node : AccountId),
      t.transaction_id = some txid →
      t.node_account_id = some node →
      (∀ p ∈ t._pending_airdrop_ids, p.sender_id ≠ none ∧
        p.receiver_id ≠ none ∧ (p.token_id ≠ none ∨ p.nft_id ≠ none)) →
      (t._pending_airdrop_ids = [] →
        t.build_transaction_body =
          .error ("You must claim at least 1 airdrop (got 0).")) ∧
      ((t._pending_airdrop_ids.length = 1 ∨
          t._pending_airdrop_ids.length = 10) →
        t._pending_airdrop_ids.Nodup →
        ∃ body ps, t.build_transaction_body = .ok body ∧
          TokenClaimAirdropTransaction.idsToProto t._pending_airdrop_ids
            = .ok ps ∧
          body.data = some (.tokenClaimAirdrop ps)) := by
  intro t txid node htxid hnode hwf
  constructor
  · intro hempty
    have hfinal : t._validate_final =
        .error ("You must claim at least 1 airdrop (got 0).") := by
      simp [TokenClaimAirdropTransaction._validate_final, hempty,
        TokenClaimAirdropTransaction.MIN_IDS]
      rfl
    simp [TokenClaimAirdropTransaction.build_transaction_body, hfinal,
      Bind.bind, Except.bind]
  · intro hlen hnodup
    have hpos : ¬ t._pending_airdrop_ids.length <
        TokenClaimAirdropTransaction.MIN_IDS := by
      rcases hlen with h | h <;> simp [h, TokenClaimAirdropTransaction.MIN_IDS]
    have hmax : ¬ TokenClaimAirdropTransaction.MAX_IDS <
        t._pending_airdrop_ids.length := by
      rcases hlen with h | h <;>
        simp [h, TokenClaimAirdropTransaction.MAX_IDS]
    have hEq : t._pending_airdrop_ids.dedup.length =
        t._pending_airdrop_ids.length :=
      (dedup_length_eq_iff_nodup _).mpr hnodup
    have hvalid : TokenClaimAirdropTransaction._validate_all
        t._pending_airdrop_ids = .ok () := by
      simp only [TokenClaimAirdropTransaction._validate_all]
      rw [if_neg hmax, if_neg (fun hcon => hcon hEq)]
    have hfinal : t._validate_final = .ok () := by
      simp only [TokenClaimAirdropTransaction._validate_final]
      rw [if_neg hpos]
      exact hvalid
    obtain ⟨ps, hps⟩ := idsToProto_ok t._pending_airdrop_ids hwf
    have hbase : t.toTransaction.build_base_transaction_body =
        .ok { transactionID := txid,
              nodeAccountID := node._to_proto,
              transactionFee :=
                t.transaction_fee.getD t._default_transaction_fee,
              transactionValidDuration := t.transaction_valid_duration,
              generateRecord := t.generate_record,
              memo := t.memo } := by
      simp [Transaction.build_base_transaction_body, htxid, hnode]
    refine ⟨{ transactionID := txid,
              nodeAccountID := node._to_proto,
              transactionFee :=
                t.transaction_fee.getD t._default_transaction_fee,
              transactionValidDuration := t.transaction_valid_duration,
              generateRecord := t.generate_record,
              memo := t.memo,
              data := some (.tokenClaimAirdrop ps) }, ps, ?_, hps, rfl⟩
    simp [TokenClaimAirdropTransaction.build_transaction_body, hfinal, hps,
      hbase, Bind.bind, Except.bind]

/-- C4 witness: a transaction with resolvable base fields and a single
    well-formed pending id builds successfully, while the empty one fails
    with the "too few" error. -/
theorem c4_witness :
    ({ transaction_id := some {}, node_account_id := some {},
       _pending_airdrop_ids := [] } :
        TokenClaimAirdropTransaction).build_transaction_body
      = .error ("You must claim at least 1 airdrop (got 0).") ∧
    ∃ body ps,
      ({ transaction_id := some {}, node_account_id := some {},
         _pending_airdrop_ids := [⟨some {}, some {}, some {}, none⟩] } :
          TokenClaimAirdropTransaction).build_transaction_body = .ok body ∧
      TokenClaimAirdropTransaction.idsToProto
          [⟨some {}, some {}, some {}, none⟩] = .ok ps ∧
      body.data = some (.tokenClaimAirdrop ps) :=
  ⟨(c4_build_transaction_body_min_bound
      { transaction_id := some {}, node_account_id := some {},
        _pending_airdrop_ids := [] } {} {} rfl rfl (by decide)).1 rfl,
   (c4_build_transaction_body_min_bound
      { transaction_id := some {}, node_account_id := some {},
        _pending_airdrop_ids := [⟨some {}, some {}, some {}, none⟩] }
      {} {} rfl rfl (by decide)).2 (Or.inl rfl) (by decide)⟩

/-- C7: the raw-byte loaders validate lengths first: an Ed25519 raw private
    seed of length other than 32 is rejected, an ECDSA raw private scalar of
    length other than 32 is rejected, and an ECDSA raw public point whose
    length is neither 33 nor 65 is rejected, each with an invalid-encoding
    error. -/
theorem c7_raw_length_validation :
    ∀ b : Bytes,
      (b.length ≠ 32 →
        PrivateKey.from_bytes_ed25519 b =
          .error ("Ed25519 seed must be exactly 32 bytes, got "
            ++ toString b.length ++ ".")) ∧
      (b.length ≠ 32 →
        PrivateKey.from_bytes_ecdsa b =
          .error ("ECDSA (secp256k1) scalar must be 32 bytes, got "
            ++ toString b.length ++ ".")) ∧
      (b.length ≠ 33 → b.length ≠ 65 →
        PublicKey.from_bytes_ecdsa b =
          .error ("ECDSA (secp256k1) pubkey must be 33 or 65 bytes, got "
            ++ toString b.length ++ ".")) := by
  intro b
  refine ⟨?_, ?_, ?_⟩
  · intro h
    simp only [PrivateKey.from_bytes_ed25519]
    rw [if_pos h]
  · intro h
    simp only [PrivateKey.from_bytes_ecdsa]
    rw [if_pos h]
  · intro h33 h65
    have hnot : ¬ (b.length = 33 ∨ b.length = 65) := by
      rintro (h | h)
      · exact h33 h
      · exact h65 h
    simp only [PublicKey.from_bytes_ecdsa]
    rw [if_pos hnot]

/-- C7 witness: a 1-byte input is rejected by all three raw loaders. -/
theorem c7_witness :
    PrivateKey.from_bytes_ed25519 [0] =
      .error ("Ed25519 seed must be exactly 32 bytes, got "
        ++ toString ([0] : Bytes).length ++ ".") ∧
    PrivateKey.from_bytes_ecdsa [0] =
      .error ("ECDSA (secp256k1) scalar must be 32 bytes, got "
        ++ toString ([0] : Bytes).length ++ ".") ∧
    PublicKey.from_bytes_ecdsa [0] =
      .error ("ECDSA (secp256k1) pubkey must be 33 or 65 bytes, got "
        ++ toString ([0] : Bytes).length ++ ".") :=
  ⟨(c7_raw_length_validation [0]).1 (by decide),
   (c7_raw_length_validation [0]).2.1 (by decide),
   (c7_raw_length_validation [0]).2.2 (by decide) (by decide)⟩

/-- Taking exactly the prefix length of an append returns the prefix. -/
theorem take_length_append (l s : List Nat) : (l ++ s).take l.length = l := by
  induction l with
  | nil => simp
  | cons a t ih => simp [ih]

/-- Dropping exactly the prefix length of an append returns the suffix. -/
theorem drop_length_append (l s : List Nat) : (l ++ s).drop l.length = s := by
  induction l with
  | nil => simp
  | cons a t ih => simp [ih]

/-- Taking at most the prefix length of an append stays inside the prefix. -/
theorem take_le_length_append (l s : List Nat) (n : Nat) (h : n ≤ l.length) :
    (l ++ s).take n = l.take n := by
  induction l generalizing n with
  | nil =>
    have : n = 0 := Nat.le_zero.mp (by simpa using h)
    simp [this]
  | cons a t ih =>
    cases n with
    | zero => simp
    | succ m => simp [ih m (by simpa using h)]

/-- C6: for every validly constructed key of either family, decoding the raw
    encoding with the matching raw loader and decoding the DER encoding with
    from_der each return the very same key, so its re-exported raw and DER
    encodings are byte-equal to the original ones.  Validity means: a
    32-byte Ed25519 seed / public key, an ECDSA private scalar in the curve
    range, and a 33-byte compressed ECDSA public point with a 02/03 tag. -/
theorem c6_key_encoding_roundtrip :
    ∀ (seed pubB rest : Bytes) (k tg : Nat),
      (seed.length = 32 →
        PrivateKey.from_bytes_ed25519 (PrivateKey.ed25519 seed).to_bytes_raw
          = .ok (.ed25519 seed) ∧
        PrivateKey.from_der (PrivateKey.ed25519 seed).to_bytes_der
          = .ok (.ed25519 seed)) ∧
      (0 < k → k < secp256k1N →
        PrivateKey.from_bytes_ecdsa (PrivateKey.ecdsa k).to_bytes_raw
          = .ok (.ecdsa k) ∧
        PrivateKey.from_der (PrivateKey.ecdsa k).to_bytes_der
          = .ok (.ecdsa k)) ∧
      (pubB.length = 32 →
        PublicKey.from_bytes_ed25519 (PublicKey.ed25519 pubB).to_bytes_raw
          = .ok (.ed25519 pubB) ∧
        PublicKey.from_der (PublicKey.ed25519 pubB).to_bytes_der
          = .ok (.ed25519 pubB)) ∧
      (rest.length = 32 → tg = 2 ∨ tg = 3 →
        PublicKey.from_bytes_ecdsa
            (PublicKey.ecdsa (tg :: rest)).to_bytes_raw
          = .ok (.ecdsa (tg :: rest)) ∧
        PublicKey.from_der (PublicKey.ecdsa (tg :: rest)).to_bytes_der
          = .ok (.ecdsa (tg :: rest))) := by
  intro seed pubB rest k tg
  refine ⟨?_, ?_, ?_, ?_⟩
  · intro h
    constructor
    · simp only [PrivateKey.to_bytes_raw, PrivateKey.from_bytes_ed25519]
      rw [if_neg (fun hc => hc h)]
    · have htake : (ed25519Pkcs8Header ++ seed).take 16 = ed25519Pkcs8Header := by
        rw [show (16 : Nat) = ed25519Pkcs8Header.length from rfl]
        exact take_length_append _ _
      have hdrop : (ed25519Pkcs8Header ++ seed).drop 16 = seed := by
        rw [show (16 : Nat) = ed25519Pkcs8Header.length from rfl]
        exact drop_length_append _ _
      simp only [PrivateKey.to_bytes_der, PrivateKey.from_der, htake, hdrop]
      simp [h]
  · intro h0 hN
    have hk32 : k < 256 ^ 32 := lt_trans hN (by norm_num [secp256k1N])
    have hbe : beBytesToNat (natToBeBytes 32 k) = k :=
      beBytesToNat_natToBeBytes 32 k hk32
    have hrange : ¬ (k = 0 ∨ secp256k1N ≤ k) := by
      rintro (hc | hc)
      · exact absurd hc (Nat.pos_iff_ne_zero.mp h0)
      · exact absurd hN (not_lt.mpr hc)
    constructor
    · simp only [PrivateKey.to_bytes_raw, PrivateKey.from_bytes_ecdsa,
        natToBeBytes_length, hbe]
      rw [if_neg (fun hc => hc rfl), if_neg hrange]
    · have h16 : (ecdsaPkcs8Header ++ natToBeBytes 32 k).take 16
          ≠ ed25519Pkcs8Header := by
        rw [take_le_length_append _ _ 16 (by decide)]
        decide
      have htake : (ecdsaPkcs8Header ++ natToBeBytes 32 k).take 33
          = ecdsaPkcs8Header := by
        rw [show (33 : Nat) = ecdsaPkcs8Header.length from rfl]
        exact take_length_append _ _
      have hdrop : (ecdsaPkcs8Header ++ natToBeBytes 32 k).drop 33
          = natToBeBytes 32 k := by
        rw [show (33 : Nat) = ecdsaPkcs8Header.length from rfl]
        exact drop_length_append _ _
      simp only [PrivateKey.to_bytes_der, PrivateKey.from_der, htake, hdrop,
        natToBeBytes_length, hbe]
      simp [hrange, h16]
  · intro h
    constructor
    · simp only [PublicKey.to_bytes_raw, PublicKey.from_bytes_ed25519]
      rw [if_neg (fun hc => hc h)]
    · have htake : (ed25519SpkiHeader ++ pubB).take 12 = ed25519SpkiHeader := by
        rw [show (12 : Nat) = ed25519SpkiHeader.length from rfl]
        exact take_length_append _ _
      have hdrop : (ed25519SpkiHeader ++ pubB).drop 12 = pubB := by
        rw [show (12 : Nat) = ed25519SpkiHeader.length from rfl]
        exact drop_length_append _ _
      simp only [PublicKey.to_bytes_der, PublicKey.from_der, htake, hdrop]
      simp [h]
  · intro hrest htg
    have hlen : (tg :: rest).length = 33 := by simp [hrest]
    constructor
    · simp only [PublicKey.to_bytes_raw, PublicKey.from_bytes_ecdsa]
      rw [if_neg (not_not_intro (Or.inl hlen)), if_pos hlen, if_pos htg]
    · have h12 : (ecdsaSpkiHeader ++ (tg :: rest)).take 12
          ≠ ed25519SpkiHeader := by
        rw [take_le_length_append _ _ 12 (by decide)]
        decide
      have htake : (ecdsaSpkiHeader ++ (tg :: rest)).take 23
          = ecdsaSpkiHeader := by
        rw [show (23 : Nat) = ecdsaSpkiHeader.length from rfl]
        exact take_length_append _ _
      have hdrop : (ecdsaSpkiHeader ++ (tg :: rest)).drop 23 = tg :: rest := by
        rw [show (23 : Nat) = ecdsaSpkiHeader.length from rfl]
        exact drop_length_append _ _
      simp only [PublicKey.to_bytes_der, PublicKey.from_der, htake, hdrop,
        hlen]
      simp [h12]

/-- C6 witness: concrete keys of each variant (the all-zero Ed25519 seed and
    public bytes, the ECDSA scalar 1, and a compressed point with tag 2)
    round-trip through their raw and DER encodings. -/
theorem c6_witness :
    (PrivateKey.from_bytes_ed25519
        (PrivateKey.ed25519 (List.replicate 32 0)).to_bytes_raw
      = .ok (.ed25519 (List.replicate 32 0)) ∧
     PrivateKey.from_der (PrivateKey.ed25519 (List.replicate 32 0)).to_bytes_der
      = .ok (.ed25519 (List.replicate 32 0))) ∧
    (PrivateKey.from_bytes_ecdsa (PrivateKey.ecdsa 1).to_bytes_raw
      = .ok (.ecdsa 1) ∧
     PrivateKey.from_der (PrivateKey.ecdsa 1).to_bytes_der = .ok (.ecdsa 1)) ∧
    (PublicKey.from_bytes_ed25519
        (PublicKey.ed25519 (List.replicate 32 0)).to_bytes_raw
      = .ok (.ed25519 (List.replicate 32 0)) ∧
     PublicKey.from_der (PublicKey.ed25519 (List.replicate 32 0)).to_bytes_der
      = .ok (.ed25519 (List.replicate 32 0))) ∧
    (PublicKey.from_bytes_ecdsa
        (PublicKey.ecdsa (2 :: List.replicate 32 0)).to_bytes_raw
      = .ok (.ecdsa (2 :: List.replicate 32 0)) ∧
     PublicKey.from_der
        (PublicKey.ecdsa (2 :: List.replicate 32 0)).to_bytes_der
      = .ok (.ecdsa (2 :: List.replicate 32 0))) :=
  ⟨(c6_key_encoding_roundtrip (List.replicate 32 0) (List.replicate 32 0)
      (List.replicate 32 0) 1 2).1 (by decide),
   (c6_key_encoding_roundtrip (List.replicate 32 0) (List.replicate 32 0)
      (List.replicate 32 0) 1 2).2.1 (by decide) (by decide),
   (c6_key_encoding_roundtrip (List.replicate 32 0) (List.replicate 32 0)
      (List.replicate 32 0) 1 2).2.2.1 (by decide),
   (c6_key_encoding_roundtrip (List.replicate 32 0) (List.replicate 32 0)
      (List.replicate 32 0) 1 2).2.2.2 (by decide) (Or.inl rfl)⟩
